import Mathlib

/-!
Verification of the local blockchain core
(`crates/rethnet_evm/src/blockchain/local.rs`).

The Rust source is embedded shallowly: 256-bit machine words become natural
numbers with explicit reduction modulo `2 ^ 256` where overflow matters,
fallible operations return `Except`, the two internal `expect` panics of the
facade are modelled as `Option.none`, and `&mut self` methods become state
transformers returning the post-call state. Types and functions declared in
sibling modules of the same repository (the sparse storage, the validation
collaborator, `Block::new`, the hashing of headers) are modelled from the
specification and marked as such in their doc comments.
-/

namespace Rethnet

/-- 256-bit machine words are modelled as natural numbers below `U256.size`. -/
abbrev U256 := Nat

/-- The modulus of 256-bit arithmetic. -/
def U256.size : Nat := 2 ^ 256

/-- Wrapping 256-bit addition. -/
def U256.add (a b : U256) : U256 := (a + b) % U256.size

/-- revm protocol versions (`SpecId`), listed in discriminant order. -/
inductive SpecId where
  | FRONTIER
  | FRONTIER_THAWING
  | HOMESTEAD
  | DAO_FORK
  | TANGERINE
  | SPURIOUS_DRAGON
  | BYZANTIUM
  | CONSTANTINOPLE
  | PETERSBURG
  | ISTANBUL
  | MUIR_GLACIER
  | BERLIN
  | LONDON
  | ARROW_GLACIER
  | GRAY_GLACIER
  | MERGE
  | SHANGHAI
  | CANCUN
  | LATEST
deriving DecidableEq

/-- The discriminant of a `SpecId`, fixing the derived Rust ordering. -/
def SpecId.toNat : SpecId → Nat
  | .FRONTIER => 0
  | .FRONTIER_THAWING => 1
  | .HOMESTEAD => 2
  | .DAO_FORK => 3
  | .TANGERINE => 4
  | .SPURIOUS_DRAGON => 5
  | .BYZANTIUM => 6
  | .CONSTANTINOPLE => 7
  | .PETERSBURG => 8
  | .ISTANBUL => 9
  | .MUIR_GLACIER => 10
  | .BERLIN => 11
  | .LONDON => 12
  | .ARROW_GLACIER => 13
  | .GRAY_GLACIER => 14
  | .MERGE => 15
  | .SHANGHAI => 16
  | .CANCUN => 17
  | .LATEST => 18

/-- Rust `a <= b` on `SpecId` (derived `PartialOrd` on discriminants). -/
def SpecId.le (a b : SpecId) : Bool := Nat.ble a.toNat b.toNat

/-- Rust `a >= b` on `SpecId`. -/
def SpecId.ge (a b : SpecId) : Bool := SpecId.le b a

/-- keccak256 of the RLP encoding of an empty list (`KECCAK_NULL_RLP`). -/
def KECCAK_NULL_RLP : Nat :=
  0x56e81f171bcc55a6ff8345e692c0f86e5b48e01b996cadc001622fb5e363b421

/-- The fixed 3-byte extra-data marker `b"124"`, as ASCII bytes. -/
def EXTRA_DATA : List Nat := [49, 50, 52]

/-- The pre-Merge genesis nonce `B64::from_limbs([66u64.to_be()])`:
byte-swapped 66. -/
def GENESIS_NONCE : Nat := 0x4200000000000000

/-- A transaction, identified by its hash; the embedded operations consult
nothing else of it. -/
abbrev Transaction := Nat

/-- A withdrawal record, modelled opaquely. -/
abbrev Withdrawal := Nat

/-- A block receipt, modelled opaquely. -/
abbrev Receipt := Nat

/-- A full block header (`rethnet_eth::block::Header`), restricted to the
fields this core reads or writes; linkage-only fields (parent hash,
beneficiary, ommers hash, logs bloom, transactions root) are consulted by no
embedded operation and are omitted. -/
structure Header where
  state_root : Nat
  receipts_root : Nat
  difficulty : U256
  number : U256
  gas_limit : U256
  gas_used : U256
  timestamp : U256
  extra_data : List Nat
  mix_hash : Nat
  nonce : Nat
  base_fee_per_gas : Option U256
  withdrawals_root : Option Nat

/-- The caller-facing header fields (`rethnet_eth::block::PartialHeader`). -/
structure PartialHeader where
  state_root : Nat
  receipts_root : Nat
  difficulty : U256
  number : U256
  gas_limit : U256
  gas_used : U256
  timestamp : U256
  extra_data : List Nat
  mix_hash : Nat
  nonce : Nat
  base_fee : Option U256

/-- A block: header, transactions and optional withdrawals. -/
structure Block where
  header : Header
  transactions : List Transaction
  withdrawals : Option (List Withdrawal)

/-- Modelled from the spec: the withdrawals trie root is computed outside this
crate; modelled as a deterministic encoding of the list. -/
def withdrawalsRoot (ws : List Withdrawal) : Nat :=
  List.foldl (fun a w => a * 2 ^ 256 + w + 1) 1 ws

/-- Modelled from the spec: `rethnet_eth::block::Block::new` lives outside this
crate; per the data model it assembles the full header from the partial header
and derives the withdrawals root from the optional withdrawals list. -/
def Block.new (ph : PartialHeader) (transactions : List Transaction)
    (_ommers : List Nat) (withdrawals : Option (List Withdrawal)) : Block :=
  { header :=
      { state_root := ph.state_root
        receipts_root := ph.receipts_root
        difficulty := ph.difficulty
        number := ph.number
        gas_limit := ph.gas_limit
        gas_used := ph.gas_used
        timestamp := ph.timestamp
        extra_data := ph.extra_data
        mix_hash := ph.mix_hash
        nonce := ph.nonce
        base_fee_per_gas := ph.base_fee
        withdrawals_root := withdrawals.map withdrawalsRoot }
    transactions := transactions
    withdrawals := withdrawals }

/-- A block bundled with caller and receipt data
(`rethnet_eth::block::DetailedBlock`). -/
structure DetailedBlock where
  block : Block
  transaction_callers : List Nat
  receipts : List Receipt

/-- `DetailedBlock::new`. -/
def DetailedBlock.new (block : Block) (transaction_callers : List Nat)
    (receipts : List Receipt) : DetailedBlock :=
  { block := block, transaction_callers := transaction_callers
    receipts := receipts }

/-- The header of a detailed block (the `Deref` to `Block` in the source). -/
def DetailedBlock.header (b : DetailedBlock) : Header := b.block.header

/-- A pairing step used by the modelled header hash. -/
def hashCombine (a b : Nat) : Nat := (a + b) * (a + b + 1) / 2 + b

/-- Modelled from the spec: block hashes are keccak256 of the RLP-encoded
header, computed outside this crate; modelled as a deterministic encoding of
the header fields. -/
def Header.blockHash (h : Header) : Nat :=
  List.foldl hashCombine 0
    ([h.state_root, h.receipts_root, h.difficulty, h.number, h.gas_limit,
      h.gas_used, h.timestamp] ++ h.extra_data ++
      [h.mix_hash, h.nonce, (h.base_fee_per_gas.map (· + 1)).getD 0,
       (h.withdrawals_root.map (· + 1)).getD 0])

/-- `DetailedBlock::hash`, the cached hash of the block's header. -/
def DetailedBlock.hash (b : DetailedBlock) : Nat := b.header.blockHash

/-- An error that occurs upon creation of a `LocalBlockchain`. -/
inductive CreationError (SE : Type) where
  | MissingBaseFee
  | MissingPrevrandao
  | State (err : SE)

/-- The error of validated genesis seeding (`InsertBlockError`). -/
inductive InsertBlockError where
  | InvalidBlockNumber (actual expected : U256)
  | MissingWithdrawals

/-- Modelled from the spec: `BlockchainError` is declared in the parent
module; §7 lists `UnknownBlockNumber` plus the validation collaborator's
errors, surfaced unchanged. -/
inductive BlockchainError where
  | InvalidBlockNumber (actual expected : U256)
  | MissingWithdrawals
  | UnknownBlockNumber

/-- Modelled from the spec: a trailing reserved-range descriptor (§3, §4.2):
`count` virtual numbers `first..=last` whose blocks are synthesized on read
from the carried-forward parent fields. -/
structure Reservation where
  first : U256
  last : U256
  interval : U256
  parent_base_fee : Option U256
  parent_state_root : Nat
  parent_total_difficulty : U256
  parent_timestamp : U256
  parent_difficulty : U256
  spec_id : SpecId

/-- Modelled from the spec: `ReservableSparseBlockchainStorage` lives in the
sibling `storage` module; §4.2 fixes its operations. Committed blocks and the
hash-to-total-difficulty index are kept newest first, so a lookup sees the
most recently recorded entry. -/
structure ReservableSparseBlockchainStorage where
  blocks : List DetailedBlock
  reservations : List Reservation
  hash_to_total_difficulty : List (Nat × U256)
  last_block_number : U256

/-- Modelled from the spec (§4.2 seed): initialize the store with exactly one
committed block and its total difficulty. -/
def ReservableSparseBlockchainStorage.with_block (b : DetailedBlock)
    (total_difficulty : U256) : ReservableSparseBlockchainStorage :=
  { blocks := [b]
    reservations := []
    hash_to_total_difficulty := [(b.hash, total_difficulty)]
    last_block_number := b.header.number }

/-- Modelled from the spec (§4.2 insert): record the block, update the
indices, advance the tail to the block's number, and hand back the stored
block. -/
def ReservableSparseBlockchainStorage.insert_block_unchecked
    (s : ReservableSparseBlockchainStorage) (b : DetailedBlock)
    (total_difficulty : U256) :
    DetailedBlock × ReservableSparseBlockchainStorage :=
  (b,
    { blocks := b :: s.blocks
      reservations := s.reservations
      hash_to_total_difficulty := (b.hash, total_difficulty) ::
        s.hash_to_total_difficulty
      last_block_number := b.header.number })

/-- Modelled from the spec (§4.2 lookup): synthesize the virtual block for
number `n` of the reserved range `r`; the spec derives the timestamp, base
fee, state root and difficulty, and the remaining fields are defaulted. -/
def Reservation.materialize (r : Reservation) (n : U256) : DetailedBlock :=
  let k := n - r.first + 1
  DetailedBlock.new
    (Block.new
      { state_root := r.parent_state_root
        receipts_root := KECCAK_NULL_RLP
        difficulty := if SpecId.ge r.spec_id SpecId.MERGE then 0
          else r.parent_difficulty
        number := n
        gas_limit := 0
        gas_used := 0
        timestamp := U256.add r.parent_timestamp (k * r.interval % U256.size)
        extra_data := []
        mix_hash := 0
        nonce := 0
        base_fee := r.parent_base_fee }
      [] [] none)
    [] []

/-- Modelled from the spec (§4.2 lookup by number): a committed number returns
the stored record, a number inside a trailing reserved range materializes the
virtual block, anything else is not found. -/
def ReservableSparseBlockchainStorage.block_by_number
    (s : ReservableSparseBlockchainStorage) (n : U256) : Option DetailedBlock :=
  match s.blocks.find? (fun b => b.header.number == n) with
  | some b => some b
  | none =>
    (s.reservations.find? (fun r =>
      decide (r.first ≤ n) && decide (n ≤ r.last))).map
      (fun r => r.materialize n)

/-- Modelled from the spec (§4.2 lookup by hash). -/
def ReservableSparseBlockchainStorage.block_by_hash
    (s : ReservableSparseBlockchainStorage) (h : Nat) : Option DetailedBlock :=
  s.blocks.find? (fun b => b.hash == h)

/-- Modelled from the spec (§4.2 lookup by transaction hash). -/
def ReservableSparseBlockchainStorage.block_by_transaction_hash
    (s : ReservableSparseBlockchainStorage) (tx : Nat) : Option DetailedBlock :=
  s.blocks.find? (fun b => b.block.transactions.contains tx)

/-- Modelled from the spec (§4.2): the recorded cumulative difficulty for a
block hash. -/
def ReservableSparseBlockchainStorage.total_difficulty_by_hash
    (s : ReservableSparseBlockchainStorage) (h : Nat) : Option U256 :=
  (s.hash_to_total_difficulty.find? (fun p => p.1 == h)).map Prod.snd

/-- Modelled from the spec (§4.2 reserve): record a reserved range of `count`
virtual numbers starting at the tail + 1 and advance the tail by `count`; the
parent's timestamp and difficulty are read from the current head block. -/
def ReservableSparseBlockchainStorage.reserve_blocks
    (s : ReservableSparseBlockchainStorage) (count : Nat) (interval : U256)
    (parent_base_fee : Option U256) (parent_state_root : Nat)
    (parent_total_difficulty : U256) (spec_id : SpecId) :
    ReservableSparseBlockchainStorage :=
  let head := s.block_by_number s.last_block_number
  { s with
    reservations := s.reservations ++
      [{ first := U256.add s.last_block_number 1
         last := U256.add s.last_block_number count
         interval := interval
         parent_base_fee := parent_base_fee
         parent_state_root := parent_state_root
         parent_total_difficulty := parent_total_difficulty
         parent_timestamp := ((head.map (fun b => b.header.timestamp)).getD 0)
         parent_difficulty := ((head.map (fun b => b.header.difficulty)).getD 0)
         spec_id := spec_id }]
    last_block_number := U256.add s.last_block_number count }

/-- Modelled from the spec (§4.2 revert): `false` (state untouched) when the
target is above the tail; otherwise discard every committed block and every
reserved slot above the target, truncating a range containing the target in
place, and report `true`. -/
def ReservableSparseBlockchainStorage.revert_to_block
    (s : ReservableSparseBlockchainStorage) (n : U256) :
    Bool × ReservableSparseBlockchainStorage :=
  if s.last_block_number < n then (false, s)
  else
    let removed := s.blocks.filter (fun b => decide (n < b.header.number))
    (true,
      { blocks := s.blocks.filter (fun b => decide (b.header.number ≤ n))
        reservations := s.reservations.filterMap (fun r =>
          if r.last ≤ n then some r
          else if r.first ≤ n then some { r with last := n }
          else none)
        hash_to_total_difficulty := s.hash_to_total_difficulty.filter
          (fun p => !((removed.map DetailedBlock.hash).contains p.1))
        last_block_number := n })

/-- The state collaborator (§6), embedded as the outcomes of the two
operations this core invokes during genesis construction. -/
structure SyncState (SE : Type) where
  checkpoint : Except SE Unit
  state_root : Except SE Nat

/-- Modelled from the spec: `validate_next_block` lives in the parent module.
§4.3 and §8 fix the block-number rule — a candidate whose number is not the
head's number + 1 is rejected with `InvalidBlockNumber{actual, expected}` —
and leave the remaining chain-continuity rules to the collaborator, so no
further rule is modelled. -/
def validate_next_block (_spec_id : SpecId) (last_block block : DetailedBlock) :
    Except BlockchainError Unit :=
  let expected := U256.add last_block.header.number 1
  if block.header.number ≠ expected then
    Except.error (BlockchainError.InvalidBlockNumber block.header.number expected)
  else
    Except.ok ()

/-- A blockchain consisting of locally created blocks. -/
structure LocalBlockchain where
  storage : ReservableSparseBlockchainStorage
  chain_id : U256
  spec_id : SpecId

/-- `with_genesis_block_unchecked`: seed the store with the provided genesis
block, whose total difficulty is its own difficulty. -/
def LocalBlockchain.with_genesis_block_unchecked (chain_id : U256)
    (spec_id : SpecId) (genesis_block : DetailedBlock) : LocalBlockchain :=
  let total_difficulty := genesis_block.header.difficulty
  { storage := ReservableSparseBlockchainStorage.with_block genesis_block
      total_difficulty
    chain_id := chain_id
    spec_id := spec_id }

/-- `with_genesis_block`: validate a zero block number and, at or above
Shanghai, the presence of a withdrawals root, then seed the store. -/
def LocalBlockchain.with_genesis_block (chain_id : U256) (spec_id : SpecId)
    (genesis_block : DetailedBlock) : Except InsertBlockError LocalBlockchain :=
  if genesis_block.header.number ≠ 0 then
    Except.error (InsertBlockError.InvalidBlockNumber genesis_block.header.number 0)
  else if SpecId.ge spec_id SpecId.SHANGHAI
      && genesis_block.header.withdrawals_root.isNone then
    Except.error InsertBlockError.MissingWithdrawals
  else
    Except.ok (LocalBlockchain.with_genesis_block_unchecked chain_id spec_id
      genesis_block)

/-- `LocalBlockchain::new`: build the genesis block from the chain parameters.
`now` stands for the wall clock read when no timestamp is supplied; failures
keep the source's evaluation order — checkpoint, state root, prevrandao
(struct field `mix_hash`), base fee. -/
def LocalBlockchain.new {SE : Type} (state : SyncState SE) (chain_id : U256)
    (spec_id : SpecId) (gas_limit : U256) (timestamp : Option U256)
    (prevrandao : Option Nat) (base_fee : Option U256) (now : U256) :
    Except (CreationError SE) LocalBlockchain :=
  let withdrawals : Option (List Withdrawal) :=
    if SpecId.ge spec_id SpecId.SHANGHAI then some [] else none
  match state.checkpoint with
  | Except.error e => Except.error (CreationError.State e)
  | Except.ok _ =>
    match state.state_root with
    | Except.error e => Except.error (CreationError.State e)
    | Except.ok state_root =>
      match (if SpecId.ge spec_id SpecId.MERGE then
               match prevrandao with
               | some p => Except.ok p
               | none =>
                 Except.error (CreationError.MissingPrevrandao : CreationError SE)
             else Except.ok 0 : Except (CreationError SE) Nat) with
      | Except.error e => Except.error e
      | Except.ok mix_hash =>
        match (if SpecId.ge spec_id SpecId.LONDON then
                 match base_fee with
                 | some b => Except.ok (some b)
                 | none =>
                   Except.error (CreationError.MissingBaseFee : CreationError SE)
               else Except.ok none : Except (CreationError SE) (Option U256)) with
        | Except.error e => Except.error e
        | Except.ok base_fee_field =>
          let genesis_block := Block.new
            { state_root := state_root
              receipts_root := KECCAK_NULL_RLP
              difficulty := if SpecId.ge spec_id SpecId.MERGE then 0 else 1
              number := 0
              gas_limit := gas_limit
              gas_used := 0
              timestamp := timestamp.getD now
              extra_data := EXTRA_DATA
              mix_hash := mix_hash
              nonce := if SpecId.ge spec_id SpecId.MERGE then 0
                else GENESIS_NONCE
              base_fee := base_fee_field }
            [] [] withdrawals
          Except.ok (LocalBlockchain.with_genesis_block_unchecked chain_id
            spec_id (DetailedBlock.new genesis_block [] []))

/-- Facade read `block_by_hash`. -/
def LocalBlockchain.block_by_hash (c : LocalBlockchain) (h : Nat) :
    Except BlockchainError (Option DetailedBlock) :=
  Except.ok (c.storage.block_by_hash h)

/-- Facade read `block_by_number`. -/
def LocalBlockchain.block_by_number (c : LocalBlockchain) (n : U256) :
    Except BlockchainError (Option DetailedBlock) :=
  Except.ok (c.storage.block_by_number n)

/-- Facade read `block_by_transaction_hash`. -/
def LocalBlockchain.block_by_transaction_hash (c : LocalBlockchain) (tx : Nat) :
    Except BlockchainError (Option DetailedBlock) :=
  Except.ok (c.storage.block_by_transaction_hash tx)

/-- Facade read `block_supports_spec`: the queried number is ignored. -/
def LocalBlockchain.block_supports_spec (c : LocalBlockchain) (_number : U256)
    (spec_id : SpecId) : Except BlockchainError Bool :=
  Except.ok (SpecId.le spec_id c.spec_id)

/-- Facade read `last_block`; `none` stands for the source's `expect` panic on
a corrupted store. -/
def LocalBlockchain.last_block (c : LocalBlockchain) : Option DetailedBlock :=
  c.storage.block_by_number c.storage.last_block_number

/-- Facade read `last_block_number`. -/
def LocalBlockchain.last_block_number (c : LocalBlockchain) : U256 :=
  c.storage.last_block_number

/-- Facade read `total_difficulty_by_hash`. -/
def LocalBlockchain.total_difficulty_by_hash (c : LocalBlockchain) (h : Nat) :
    Except BlockchainError (Option U256) :=
  Except.ok (c.storage.total_difficulty_by_hash h)

/-- `insert_block` as a state transformer: validate against the current head,
add the head's recorded total difficulty to the candidate's difficulty, then
perform the trusted insertion. `none` stands for an internal `expect` panic;
the returned chain is the post-call state, unchanged on error. -/
def LocalBlockchain.insert_block (c : LocalBlockchain) (block : DetailedBlock) :
    Option (Except BlockchainError DetailedBlock × LocalBlockchain) :=
  match c.last_block with
  | none => none
  | some last_block =>
    match validate_next_block c.spec_id last_block block with
    | Except.error e => some (Except.error e, c)
    | Except.ok _ =>
      match c.storage.total_difficulty_by_hash last_block.hash with
      | none => none
      | some previous_total_difficulty =>
        let total_difficulty :=
          U256.add previous_total_difficulty block.header.difficulty
        let inserted := c.storage.insert_block_unchecked block total_difficulty
        some (Except.ok inserted.1, { c with storage := inserted.2 })

/-- `reserve_blocks` as a state transformer: nothing to do when `additional`
is zero, otherwise delegate to the storage with the head's base fee, state
root and recorded total difficulty carried forward. -/
def LocalBlockchain.reserve_blocks (c : LocalBlockchain) (additional : Nat)
    (interval : U256) :
    Option (Except BlockchainError Unit × LocalBlockchain) :=
  if additional = 0 then some (Except.ok (), c)
  else
    match c.last_block with
    | none => none
    | some last_block =>
      match c.storage.total_difficulty_by_hash last_block.hash with
      | none => none
      | some previous_total_difficulty =>
        some (Except.ok (),
          { c with
            storage := c.storage.reserve_blocks additional interval
              last_block.header.base_fee_per_gas last_block.header.state_root
              previous_total_difficulty c.spec_id })

/-- `revert_to_block` as a state transformer: surface the storage's `false`
as `UnknownBlockNumber`. -/
def LocalBlockchain.revert_to_block (c : LocalBlockchain) (block_number : U256) :
    Except BlockchainError Unit × LocalBlockchain :=
  let result := c.storage.revert_to_block block_number
  if result.1 then (Except.ok (), { c with storage := result.2 })
  else (Except.error BlockchainError.UnknownBlockNumber,
    { c with storage := result.2 })

/-- `BlockHashRef::block_hash`: number to hash resolution. -/
def LocalBlockchain.block_hash (c : LocalBlockchain) (number : U256) :
    Except BlockchainError Nat :=
  match c.storage.block_by_number number with
  | some b => Except.ok b.hash
  | none => Except.error BlockchainError.UnknownBlockNumber

/-- Run a sequence of `insert_block` calls, stopping at the first error or
panic. -/
def insertSeq (c : LocalBlockchain) :
    List DetailedBlock → Option (Except BlockchainError LocalBlockchain)
  | [] => some (Except.ok c)
  | b :: rest =>
    match c.insert_block b with
    | none => none
    | some (Except.error e, _) => some (Except.error e)
    | some (Except.ok _, c2) => insertSeq c2 rest

/-- A concrete pre-Merge genesis block, used to evaluate the theorems. -/
def exampleGenesis : DetailedBlock :=
  DetailedBlock.new
    (Block.new
      { state_root := 7
        receipts_root := KECCAK_NULL_RLP
        difficulty := 1
        number := 0
        gas_limit := 8000000
        gas_used := 0
        timestamp := 100
        extra_data := EXTRA_DATA
        mix_hash := 0
        nonce := GENESIS_NONCE
        base_fee := none }
      [] [] none)
    [] []

/-- A concrete successor block with the given number and difficulty. -/
def mkBlock (number difficulty : U256) : DetailedBlock :=
  DetailedBlock.new
    (Block.new
      { state_root := 7
        receipts_root := KECCAK_NULL_RLP
        difficulty := difficulty
        number := number
        gas_limit := 8000000
        gas_used := 0
        timestamp := 100 + 13 * number
        extra_data := []
        mix_hash := 0
        nonce := GENESIS_NONCE
        base_fee := none }
      [] [] none)
    [] []

/-- A concrete chain, seeded with `exampleGenesis` at Berlin. -/
def exampleChain : LocalBlockchain :=
  LocalBlockchain.with_genesis_block_unchecked 31337 SpecId.BERLIN exampleGenesis

/-- A freshly seeded store resolves the seeded block's number to the block. -/
theorem with_block_head (b : DetailedBlock) (td : U256) :
    (ReservableSparseBlockchainStorage.with_block b td).block_by_number
      b.header.number = some b := by
  simp [ReservableSparseBlockchainStorage.with_block,
    ReservableSparseBlockchainStorage.block_by_number, List.find?]

/-- A freshly seeded store records the seeded total difficulty for the
seeded block's hash. -/
theorem with_block_total_difficulty (b : DetailedBlock) (td : U256) :
    (ReservableSparseBlockchainStorage.with_block b td).total_difficulty_by_hash
      b.hash = some td := by
  simp [ReservableSparseBlockchainStorage.with_block,
    ReservableSparseBlockchainStorage.total_difficulty_by_hash, List.find?]

/-- After a trusted insertion the inserted block is the head record and its
total difficulty is the recorded one. -/
theorem insert_unchecked_head (s : ReservableSparseBlockchainStorage)
    (b : DetailedBlock) (td : U256) :
    (s.insert_block_unchecked b td).2.block_by_number b.header.number = some b
    ∧ (s.insert_block_unchecked b td).2.total_difficulty_by_hash b.hash
        = some td := by
  constructor
  · simp [ReservableSparseBlockchainStorage.insert_block_unchecked,
      ReservableSparseBlockchainStorage.block_by_number, List.find?]
  · simp [ReservableSparseBlockchainStorage.insert_block_unchecked,
      ReservableSparseBlockchainStorage.total_difficulty_by_hash, List.find?]

/-- C7: `block_supports_spec(number, spec)` answers `true` exactly when the
queried spec is at most the protocol version fixed at construction, and its
result does not depend on the queried block number. -/
theorem block_supports_spec_fixed_version (c : LocalBlockchain) (n n2 : U256)
    (spec : SpecId) :
    (c.block_supports_spec n spec = Except.ok true
      ↔ SpecId.le spec c.spec_id = true)
    ∧ c.block_supports_spec n spec = c.block_supports_spec n2 spec := by
  refine ⟨?_, rfl⟩
  simp [LocalBlockchain.block_supports_spec]

/-- C9: reserving zero blocks succeeds and returns the chain state unchanged
in every component. -/
theorem reserve_blocks_zero_noop (c : LocalBlockchain) (interval : U256) :
    c.reserve_blocks 0 interval = some (Except.ok (), c) := rfl

/-- C8: reverting to a block number that was never reached (above the tail)
fails with `UnknownBlockNumber` and returns the chain state unchanged. -/
theorem revert_to_block_unknown (c : LocalBlockchain) (n : U256)
    (h : c.storage.last_block_number < n) :
    c.revert_to_block n =
      (Except.error BlockchainError.UnknownBlockNumber, c) := by
  unfold LocalBlockchain.revert_to_block
    ReservableSparseBlockchainStorage.revert_to_block
  simp [h]

/-- The unknown-number revert failure, evaluated on a concrete chain. -/
theorem revert_to_block_unknown_witness :
    exampleChain.storage.last_block_number < 5 ∧
    exampleChain.revert_to_block 5 =
      (Except.error BlockchainError.UnknownBlockNumber, exampleChain) :=
  ⟨by decide, revert_to_block_unknown exampleChain 5 (by decide)⟩

/-- C1: a candidate block whose number is not the current head's number + 1 is
rejected by `insert_block` with `InvalidBlockNumber{actual = candidate number,
expected = head number + 1}`, and the chain state is returned unchanged. -/
theorem insert_block_invalid_number (c : LocalBlockchain)
    (block head : DetailedBlock)
    (hhead : c.last_block = some head)
    (hsize : head.header.number + 1 < U256.size)
    (hne : block.header.number ≠ head.header.number + 1) :
    c.insert_block block =
      some (Except.error (BlockchainError.InvalidBlockNumber
        block.header.number (head.header.number + 1)), c) := by
  have hexp : U256.add head.header.number 1 = head.header.number + 1 :=
    Nat.mod_eq_of_lt hsize
  unfold LocalBlockchain.insert_block
  rw [hhead]
  unfold validate_next_block
  simp only [hexp]
  simp [hne]

/-- The invalid-number insertion failure, evaluated on a concrete chain at
height 0 with a candidate numbered 5. -/
theorem insert_block_invalid_number_witness :
    exampleChain.last_block = some exampleGenesis ∧
    exampleGenesis.header.number + 1 < U256.size ∧
    (mkBlock 5 3).header.number ≠ exampleGenesis.header.number + 1 ∧
    exampleChain.insert_block (mkBlock 5 3) =
      some (Except.error (BlockchainError.InvalidBlockNumber 5 1),
        exampleChain) :=
  ⟨rfl, by decide, by decide,
    insert_block_invalid_number exampleChain (mkBlock 5 3) exampleGenesis rfl
      (by decide) (by decide)⟩

/-- The version comparison is monotone along the fork order. -/
theorem specId_ge_of_ge_of_le {s a b : SpecId} (hab : SpecId.le a b = true)
    (h : SpecId.ge s b = true) : SpecId.ge s a = true := by
  unfold SpecId.ge at h ⊢
  unfold SpecId.le at hab h ⊢
  simp only [Nat.ble_eq] at hab h ⊢
  exact Nat.le_trans hab h

/-- C3: at or above Merge, genesis construction with no prevrandao fails with
`MissingPrevrandao` (the state collaborator's two calls succeeding). -/
theorem new_missing_prevrandao {SE : Type} (state : SyncState SE)
    (chain_id : U256) (spec_id : SpecId) (gas_limit : U256)
    (timestamp : Option U256) (base_fee : Option U256) (now : U256) (root : Nat)
    (hck : state.checkpoint = Except.ok ())
    (hsr : state.state_root = Except.ok root)
    (hmerge : SpecId.ge spec_id SpecId.MERGE = true) :
    LocalBlockchain.new state chain_id spec_id gas_limit timestamp none
      base_fee now = Except.error CreationError.MissingPrevrandao := by
  unfold LocalBlockchain.new
  rw [hck, hsr, hmerge]
  simp

/-- The missing-prevrandao failure, evaluated at Merge with a trivially
succeeding state collaborator. -/
theorem new_missing_prevrandao_witness :
    (⟨Except.ok (), Except.ok 0⟩ : SyncState Unit).checkpoint = Except.ok ()
    ∧ (⟨Except.ok (), Except.ok 0⟩ : SyncState Unit).state_root = Except.ok 0
    ∧ SpecId.ge SpecId.MERGE SpecId.MERGE = true
    ∧ LocalBlockchain.new (⟨Except.ok (), Except.ok 0⟩ : SyncState Unit) 1
        SpecId.MERGE 1000 none none none 0
      = Except.error CreationError.MissingPrevrandao :=
  ⟨rfl, rfl, by decide,
    new_missing_prevrandao (⟨Except.ok (), Except.ok 0⟩ : SyncState Unit) 1
      SpecId.MERGE 1000 none none 0 0 rfl rfl (by decide)⟩

/-- On success, `new` seeds the store with exactly the genesis block it
built: withdrawals are an empty present list exactly at or above Shanghai,
and the base-fee field is the caller's argument exactly at or above London. -/
theorem new_ok_shape {SE : Type} (state : SyncState SE) (chain_id : U256)
    (spec_id : SpecId) (gas_limit : U256) (timestamp : Option U256)
    (prevrandao : Option Nat) (base_fee : Option U256) (now : U256)
    (c : LocalBlockchain)
    (hok : LocalBlockchain.new state chain_id spec_id gas_limit timestamp
      prevrandao base_fee now = Except.ok c) :
    ∃ g, c.storage.blocks = [g]
      ∧ g.block.withdrawals =
          (if SpecId.ge spec_id SpecId.SHANGHAI then some [] else none)
      ∧ g.header.base_fee_per_gas =
          (if SpecId.ge spec_id SpecId.LONDON then base_fee else none) := by
  simp only [LocalBlockchain.new] at hok
  split at hok
  · exact Except.noConfusion hok
  · split at hok
    · exact Except.noConfusion hok
    · split at hok
      · exact Except.noConfusion hok
      · split at hok
        · exact Except.noConfusion hok
        · rename_i mix_hash heq_mix base_fee_field heq_bf
          injection hok with hok
          subst hok
          refine ⟨_, rfl, rfl, ?_⟩
          show base_fee_field =
            if SpecId.ge spec_id SpecId.LONDON then base_fee else none
          cases hlon : SpecId.ge spec_id SpecId.LONDON with
          | false =>
            rw [hlon] at heq_bf
            simp at heq_bf
            simp [heq_bf.symm]
          | true =>
            rw [hlon] at heq_bf
            cases hbf : base_fee with
            | none => rw [hbf] at heq_bf; exact Except.noConfusion heq_bf
            | some b =>
              rw [hbf] at heq_bf
              injection heq_bf with heq_bf
              simp [heq_bf.symm]

/-- C4: at or above London — the state collaborator succeeding and prevrandao
supplied where Merge requires it — genesis construction with no base fee fails
with `MissingBaseFee`; below London the constructed genesis header carries no
base-fee field whatever the argument. -/
theorem new_base_fee_rule {SE : Type} (state : SyncState SE) (chain_id : U256)
    (spec_id : SpecId) (gas_limit : U256) (timestamp : Option U256)
    (prevrandao : Option Nat) (base_fee : Option U256) (now : U256) (root : Nat)
    (hck : state.checkpoint = Except.ok ())
    (hsr : state.state_root = Except.ok root) :
    (SpecId.ge spec_id SpecId.LONDON = true →
      (SpecId.ge spec_id SpecId.MERGE = true → prevrandao.isSome = true) →
      LocalBlockchain.new state chain_id spec_id gas_limit timestamp prevrandao
        none now = Except.error CreationError.MissingBaseFee)
    ∧ (SpecId.ge spec_id SpecId.LONDON = false →
      ∀ c, LocalBlockchain.new state chain_id spec_id gas_limit timestamp
          prevrandao base_fee now = Except.ok c →
        ∃ g, c.storage.blocks = [g] ∧ g.header.base_fee_per_gas = none) := by
  constructor
  · intro hlon hpr
    unfold LocalBlockchain.new
    rw [hck, hsr, hlon]
    cases hm : SpecId.ge spec_id SpecId.MERGE with
    | false => simp
    | true =>
      obtain ⟨p, hp⟩ := Option.isSome_iff_exists.mp (hpr hm)
      subst hp
      simp
  · intro hlon c hok
    obtain ⟨g, hblocks, _, hbfg⟩ := new_ok_shape state chain_id spec_id
      gas_limit timestamp prevrandao base_fee now c hok
    rw [hlon] at hbfg
    exact ⟨g, hblocks, by simpa using hbfg⟩

/-- The base-fee rule evaluated concretely: missing base fee at London fails,
and a Berlin genesis built with a base-fee argument still has no base-fee
field. -/
theorem new_base_fee_rule_witness :
    (LocalBlockchain.new (⟨Except.ok (), Except.ok 0⟩ : SyncState Unit) 1
        SpecId.LONDON 1000 none none none 0
      = Except.error CreationError.MissingBaseFee)
    ∧ ∃ c, LocalBlockchain.new (⟨Except.ok (), Except.ok 0⟩ : SyncState Unit) 1
          SpecId.BERLIN 1000 none none (some 7) 0 = Except.ok c
        ∧ ∃ g, c.storage.blocks = [g] ∧ g.header.base_fee_per_gas = none := by
  constructor
  · exact (new_base_fee_rule (⟨Except.ok (), Except.ok 0⟩ : SyncState Unit) 1
      SpecId.LONDON 1000 none none none 0 0 rfl rfl).1 (by decide) (by decide)
  · refine ⟨LocalBlockchain.with_genesis_block_unchecked 1 SpecId.BERLIN
      (DetailedBlock.new (Block.new
        { state_root := 0, receipts_root := KECCAK_NULL_RLP, difficulty := 1,
          number := 0, gas_limit := 1000, gas_used := 0, timestamp := 0,
          extra_data := EXTRA_DATA, mix_hash := 0, nonce := GENESIS_NONCE,
          base_fee := none } [] [] none) [] []), rfl, ?_⟩
    exact (new_base_fee_rule (⟨Except.ok (), Except.ok 0⟩ : SyncState Unit) 1
      SpecId.BERLIN 1000 none none (some 7) 0 0 rfl rfl).2 (by decide) _ rfl

/-- C5: a successfully constructed genesis has a present, empty withdrawals
list exactly when the protocol version is at or above Shanghai, and no
withdrawals field below Shanghai. -/
theorem new_withdrawals_rule {SE : Type} (state : SyncState SE)
    (chain_id : U256) (spec_id : SpecId) (gas_limit : U256)
    (timestamp : Option U256) (prevrandao : Option Nat)
    (base_fee : Option U256) (now : U256) (c : LocalBlockchain)
    (hok : LocalBlockchain.new state chain_id spec_id gas_limit timestamp
      prevrandao base_fee now = Except.ok c) :
    ∃ g, c.storage.blocks = [g]
      ∧ (g.block.withdrawals = some []
          ↔ SpecId.ge spec_id SpecId.SHANGHAI = true)
      ∧ (SpecId.ge spec_id SpecId.SHANGHAI = false →
          g.block.withdrawals = none) := by
  obtain ⟨g, hblocks, hw, _⟩ := new_ok_shape state chain_id spec_id gas_limit
    timestamp prevrandao base_fee now c hok
  refine ⟨g, hblocks, ?_, ?_⟩
  · cases hsh : SpecId.ge spec_id SpecId.SHANGHAI with
    | false => rw [hsh] at hw; simp [hw]
    | true => rw [hsh] at hw; simp [hw]
  · intro hsh; rw [hsh] at hw; simpa using hw

/-- The withdrawals rule evaluated concretely on a Shanghai genesis. -/
theorem new_withdrawals_rule_witness :
    ∃ c, LocalBlockchain.new (⟨Except.ok (), Except.ok 0⟩ : SyncState Unit) 1
        SpecId.SHANGHAI 1000 none (some 5) (some 7) 0 = Except.ok c
      ∧ ∃ g, c.storage.blocks = [g]
        ∧ (g.block.withdrawals = some []
            ↔ SpecId.ge SpecId.SHANGHAI SpecId.SHANGHAI = true)
        ∧ (SpecId.ge SpecId.SHANGHAI SpecId.SHANGHAI = false →
            g.block.withdrawals = none) := by
  refine ⟨LocalBlockchain.with_genesis_block_unchecked 1 SpecId.SHANGHAI
    (DetailedBlock.new (Block.new
      { state_root := 0, receipts_root := KECCAK_NULL_RLP, difficulty := 0,
        number := 0, gas_limit := 1000, gas_used := 0, timestamp := 0,
        extra_data := EXTRA_DATA, mix_hash := 5, nonce := 0,
        base_fee := some 7 } [] [] (some [])) [] []), rfl, ?_⟩
  exact new_withdrawals_rule (⟨Except.ok (), Except.ok 0⟩ : SyncState Unit) 1
    SpecId.SHANGHAI 1000 none (some 5) (some 7) 0 _ rfl

/-- C6: seeding with a provided genesis block rejects a nonzero block number
with `InvalidBlockNumber{actual, expected = 0}`, rejects a missing withdrawals
root at or above Shanghai with `MissingWithdrawals`, and otherwise seeds the
store with exactly that block and its difficulty as total difficulty. -/
theorem with_genesis_block_rules (chain_id : U256) (spec_id : SpecId)
    (g : DetailedBlock) :
    (g.header.number ≠ 0 →
      LocalBlockchain.with_genesis_block chain_id spec_id g =
        Except.error (InsertBlockError.InvalidBlockNumber g.header.number 0))
    ∧ (g.header.number = 0 → SpecId.ge spec_id SpecId.SHANGHAI = true →
      g.header.withdrawals_root = none →
      LocalBlockchain.with_genesis_block chain_id spec_id g =
        Except.error InsertBlockError.MissingWithdrawals)
    ∧ (g.header.number = 0 →
      (SpecId.ge spec_id SpecId.SHANGHAI = true →
        g.header.withdrawals_root ≠ none) →
      ∃ c, LocalBlockchain.with_genesis_block chain_id spec_id g = Except.ok c
        ∧ c.storage.blocks = [g]
        ∧ c.storage.total_difficulty_by_hash g.hash = some g.header.difficulty
        ∧ c.chain_id = chain_id ∧ c.spec_id = spec_id) := by
  refine ⟨?_, ?_, ?_⟩
  · intro h
    simp [LocalBlockchain.with_genesis_block, h]
  · intro h0 hsh hwr
    simp [LocalBlockchain.with_genesis_block, h0, hsh, hwr]
  · intro h0 hw
    have hcond : (SpecId.ge spec_id SpecId.SHANGHAI
        && g.header.withdrawals_root.isNone) = false := by
      cases hsh : SpecId.ge spec_id SpecId.SHANGHAI with
      | false => simp
      | true =>
        have hne := hw hsh
        cases hwr : g.header.withdrawals_root with
        | none => exact absurd hwr hne
        | some v => simp
    refine ⟨LocalBlockchain.with_genesis_block_unchecked chain_id spec_id g,
      ?_, rfl, ?_, rfl, rfl⟩
    · simp [LocalBlockchain.with_genesis_block, h0, hcond]
    · exact with_block_total_difficulty g g.header.difficulty

/-- The genesis-seeding rules evaluated concretely: nonzero number rejected,
missing withdrawals at Shanghai rejected, and a valid Berlin genesis seeds the
store. -/
theorem with_genesis_block_rules_witness :
    (LocalBlockchain.with_genesis_block 1 SpecId.BERLIN (mkBlock 5 3)
      = Except.error (InsertBlockError.InvalidBlockNumber 5 0))
    ∧ (LocalBlockchain.with_genesis_block 1 SpecId.SHANGHAI exampleGenesis
      = Except.error InsertBlockError.MissingWithdrawals)
    ∧ ∃ c, LocalBlockchain.with_genesis_block 1 SpecId.BERLIN exampleGenesis
        = Except.ok c
      ∧ c.storage.blocks = [exampleGenesis]
      ∧ c.storage.total_difficulty_by_hash exampleGenesis.hash
          = some exampleGenesis.header.difficulty
      ∧ c.chain_id = 1 ∧ c.spec_id = SpecId.BERLIN :=
  ⟨(with_genesis_block_rules 1 SpecId.BERLIN (mkBlock 5 3)).1 (by decide),
   (with_genesis_block_rules 1 SpecId.SHANGHAI exampleGenesis).2.1 rfl
     (by decide) rfl,
   (with_genesis_block_rules 1 SpecId.BERLIN exampleGenesis).2.2 rfl
     (by decide)⟩

/-- C10: no mutating operation — insertion, reservation, or reversion —
changes the chain id or the configured protocol version; the read operations
are pure functions of the state in this embedding, so only the mutators are
stated. -/
theorem chain_identity_immutable (c : LocalBlockchain) (b : DetailedBlock)
    (additional : Nat) (interval n : U256) :
    (∀ r c2, c.insert_block b = some (r, c2) →
      c2.chain_id = c.chain_id ∧ c2.spec_id = c.spec_id)
    ∧ (∀ r c2, c.reserve_blocks additional interval = some (r, c2) →
      c2.chain_id = c.chain_id ∧ c2.spec_id = c.spec_id)
    ∧ (c.revert_to_block n).2.chain_id = c.chain_id
    ∧ (c.revert_to_block n).2.spec_id = c.spec_id := by
  refine ⟨?_, ?_, ?_, ?_⟩
  · intro r c2 h
    unfold LocalBlockchain.insert_block at h
    split at h
    · exact Option.noConfusion h
    · split at h
      · simp at h
        obtain ⟨-, h2⟩ := h
        subst h2
        exact ⟨rfl, rfl⟩
      · split at h
        · exact Option.noConfusion h
        · simp at h
          obtain ⟨-, h2⟩ := h
          subst h2
          exact ⟨rfl, rfl⟩
  · intro r c2 h
    unfold LocalBlockchain.reserve_blocks at h
    split at h
    · simp at h
      obtain ⟨-, h2⟩ := h
      subst h2
      exact ⟨rfl, rfl⟩
    · split at h
      · exact Option.noConfusion h
      · split at h
        · exact Option.noConfusion h
        · simp at h
          obtain ⟨-, h2⟩ := h
          subst h2
          exact ⟨rfl, rfl⟩
  · cases hb : (c.storage.revert_to_block n).1 <;>
      simp [LocalBlockchain.revert_to_block, hb]
  · cases hb : (c.storage.revert_to_block n).1 <;>
      simp [LocalBlockchain.revert_to_block, hb]

/-- The post-insert and post-reserve chains of the concrete example. -/
def exampleChainIns : LocalBlockchain :=
  match exampleChain.insert_block (mkBlock 1 2) with
  | some (_, c) => c
  | none => exampleChain

/-- The chain after reserving three blocks on the concrete example. -/
def exampleChainRes : LocalBlockchain :=
  match exampleChain.reserve_blocks 3 12 with
  | some (_, c) => c
  | none => exampleChain

/-- Chain identity preserved across a concrete insertion, reservation, and
reversion. -/
theorem chain_identity_immutable_witness :
    exampleChainIns.chain_id = exampleChain.chain_id
    ∧ exampleChainIns.spec_id = exampleChain.spec_id
    ∧ exampleChainRes.chain_id = exampleChain.chain_id
    ∧ exampleChainRes.spec_id = exampleChain.spec_id
    ∧ (exampleChain.revert_to_block 0).2.chain_id = exampleChain.chain_id
    ∧ (exampleChain.revert_to_block 0).2.spec_id = exampleChain.spec_id :=
  ⟨((chain_identity_immutable exampleChain (mkBlock 1 2) 3 12 0).1
      (Except.ok (mkBlock 1 2)) exampleChainIns rfl).1,
   ((chain_identity_immutable exampleChain (mkBlock 1 2) 3 12 0).1
      (Except.ok (mkBlock 1 2)) exampleChainIns rfl).2,
   ((chain_identity_immutable exampleChain (mkBlock 1 2) 3 12 0).2.1
      (Except.ok ()) exampleChainRes rfl).1,
   ((chain_identity_immutable exampleChain (mkBlock 1 2) 3 12 0).2.1
      (Except.ok ()) exampleChainRes rfl).2,
   (chain_identity_immutable exampleChain (mkBlock 1 2) 3 12 0).2.2.1,
   (chain_identity_immutable exampleChain (mkBlock 1 2) 3 12 0).2.2.2⟩

/-- Invariant of successful insertion runs: starting from a chain whose head
has recorded total difficulty `t`, a successful run of `insertSeq` ends with
the last inserted block recorded at `t` plus the sum of the inserted
difficulties, modulo `2 ^ 256`. -/
theorem insertSeq_total_difficulty (bs : List DetailedBlock) :
    ∀ (c : LocalBlockchain) (hb bk : DetailedBlock) (t : U256)
      (c2 : LocalBlockchain),
      c.last_block = some hb →
      c.storage.total_difficulty_by_hash hb.hash = some t →
      insertSeq c bs = some (Except.ok c2) →
      bs.getLast? = some bk →
      c2.storage.total_difficulty_by_hash bk.hash =
        some ((t + (bs.map (fun b => b.header.difficulty)).sum) % U256.size) := by
  induction bs with
  | nil =>
    intro c hb bk t c2 _ _ _ hlast
    exact Option.noConfusion hlast
  | cons b rest ih =>
    intro c hb bk t c2 hhead htd hrun hlast
    cases hv : validate_next_block c.spec_id hb b with
    | error e =>
      have hins : c.insert_block b = some (Except.error e, c) := by
        unfold LocalBlockchain.insert_block
        rw [hhead]
        dsimp only
        rw [hv]
      unfold insertSeq at hrun
      rw [hins] at hrun
      simp at hrun
    | ok u =>
      have hins : c.insert_block b = some (Except.ok b,
          { c with storage := (c.storage.insert_block_unchecked b
              (U256.add t b.header.difficulty)).2 }) := by
        unfold LocalBlockchain.insert_block
        rw [hhead]
        dsimp only
        rw [hv]
        dsimp only
        rw [htd]
        rfl
      unfold insertSeq at hrun
      rw [hins] at hrun
      simp only [] at hrun
      have hc1head : ({ c with storage := (c.storage.insert_block_unchecked b
          (U256.add t b.header.difficulty)).2 } : LocalBlockchain).last_block
          = some b :=
        (insert_unchecked_head c.storage b (U256.add t b.header.difficulty)).1
      have hc1td : ({ c with storage := (c.storage.insert_block_unchecked b
          (U256.add t b.header.difficulty)).2 } : LocalBlockchain
          ).storage.total_difficulty_by_hash b.hash
          = some (U256.add t b.header.difficulty) :=
        (insert_unchecked_head c.storage b (U256.add t b.header.difficulty)).2
      cases rest with
      | nil =>
        have hbk : bk = b := by
          simp at hlast
          exact hlast.symm
        rw [hbk]
        have hc2 : c2 = { c with storage := (c.storage.insert_block_unchecked b
            (U256.add t b.header.difficulty)).2 } := by
          unfold insertSeq at hrun
          simp at hrun
          exact hrun.symm
        rw [hc2]
        simpa using hc1td
      | cons b2 rs =>
        have hlast2 : (b2 :: rs).getLast? = some bk := by
          rw [List.getLast?_cons_cons] at hlast
          exact hlast
        have hres := ih _ b bk (U256.add t b.header.difficulty) c2 hc1head
          hc1td hrun hlast2
        rw [hres]
        have harith : (U256.add t b.header.difficulty +
            ((b2 :: rs).map (fun x => x.header.difficulty)).sum) % U256.size
            = (t + ((b :: b2 :: rs).map (fun x => x.header.difficulty)).sum)
              % U256.size := by
          show ((t + b.header.difficulty) % U256.size +
            ((b2 :: rs).map (fun x => x.header.difficulty)).sum) % U256.size = _
          rw [Nat.mod_add_mod]
          simp [Nat.add_assoc]
        rw [harith]

/-- C2: the genesis is seeded with total difficulty equal to its own
difficulty, and after k successful insertions of blocks with difficulties
d1..dk atop a genesis of difficulty d0, the total difficulty recorded for the
k-th block's hash is d0 + d1 + ... + dk (the sum not overflowing 256 bits). -/
theorem total_difficulty_after_inserts (chain_id : U256) (spec_id : SpecId)
    (g bk : DetailedBlock) (bs : List DetailedBlock) (c : LocalBlockchain)
    (hsum : g.header.difficulty +
      (bs.map (fun b => b.header.difficulty)).sum < U256.size)
    (hrun : insertSeq (LocalBlockchain.with_genesis_block_unchecked chain_id
      spec_id g) bs = some (Except.ok c))
    (hlast : bs.getLast? = some bk) :
    c.total_difficulty_by_hash bk.hash =
      Except.ok (some (g.header.difficulty +
        (bs.map (fun b => b.header.difficulty)).sum))
    ∧ (LocalBlockchain.with_genesis_block_unchecked chain_id spec_id g
        ).total_difficulty_by_hash g.hash =
      Except.ok (some g.header.difficulty) := by
  constructor
  · have h0head : (LocalBlockchain.with_genesis_block_unchecked chain_id
        spec_id g).last_block = some g :=
      with_block_head g g.header.difficulty
    have h0td : (LocalBlockchain.with_genesis_block_unchecked chain_id spec_id
        g).storage.total_difficulty_by_hash g.hash = some g.header.difficulty :=
      with_block_total_difficulty g g.header.difficulty
    have hres := insertSeq_total_difficulty bs _ g bk g.header.difficulty c
      h0head h0td hrun hlast
    unfold LocalBlockchain.total_difficulty_by_hash
    rw [hres, Nat.mod_eq_of_lt hsum]
  · exact congrArg Except.ok (with_block_total_difficulty g g.header.difficulty)

/-- The chain after two successful insertions on the concrete example. -/
def exampleChain2 : LocalBlockchain :=
  match insertSeq exampleChain [mkBlock 1 2, mkBlock 2 3] with
  | some (Except.ok c) => c
  | _ => exampleChain

/-- Difficulty accounting evaluated concretely: genesis difficulty 1, then
blocks of difficulty 2 and 3, totalling 6. -/
theorem total_difficulty_after_inserts_witness :
    exampleGenesis.header.difficulty + (([mkBlock 1 2, mkBlock 2 3].map
      (fun b => b.header.difficulty)).sum) < U256.size
    ∧ insertSeq exampleChain [mkBlock 1 2, mkBlock 2 3]
        = some (Except.ok exampleChain2)
    ∧ [mkBlock 1 2, mkBlock 2 3].getLast? = some (mkBlock 2 3)
    ∧ exampleChain2.total_difficulty_by_hash (mkBlock 2 3).hash
        = Except.ok (some 6)
    ∧ exampleChain.total_difficulty_by_hash exampleGenesis.hash
        = Except.ok (some 1) :=
  ⟨by decide, rfl, rfl,
    (total_difficulty_after_inserts 31337 SpecId.BERLIN exampleGenesis
      (mkBlock 2 3) [mkBlock 1 2, mkBlock 2 3] exampleChain2 (by decide) rfl
      rfl).1,
    (total_difficulty_after_inserts 31337 SpecId.BERLIN exampleGenesis
      (mkBlock 2 3) [mkBlock 1 2, mkBlock 2 3] exampleChain2 (by decide) rfl
      rfl).2⟩

end Rethnet
